import Mathlib

/-!
Verification of the `bachopus_ai_agents` repository (a three-phase AI
orchestrator over Datadog telemetry) against its natural-language
specification.

The development is a shallow embedding of the Python sources:

* `core/reasoning_state.py` — `ReasoningPhase`, `ReasoningStep`,
  `ReasoningState` and its mutating methods, embedded as pure state-passing
  functions.  Python `datetime.now()` values are threaded in as explicit
  `Nat` clock arguments; Python floats are embedded as rationals (`ℚ`),
  which is exact for the arithmetic the claims are about (the code stores
  literally `sum(confidences) / len(steps)`).
* `core/orchestrator.py` — the planning / execution / feedback phases and
  `process_query`.  External effects (the LLM call) are supplied as an
  explicit outcome parameter.  Three facts about this module are embedded
  exactly as the source has them, because several claims hinge on them:
  the module never imports `json` (so every `json.loads` / `json.dumps`
  call site raises `NameError`), `DataAgent` defines neither
  `collect_system_metrics` nor `collect_logs` (so every per-tag collector
  call raises `AttributeError`), and `ProtocolAgent` defines no
  `analyze_protocols` (so the execution phase always ends in its error
  handler).
* `agents/protocol_agent.py` — `analyze_metrics`, `analyze_logs`,
  `analyze_error_log`, `generate_recommendations`, `_determine_severity`
  and their helpers.

Dictionaries whose values matter only structurally are embedded as
association lists `List (String × Json)` over a small JSON value type;
Python `list(set(xs))` deduplication is embedded as `List.dedup`
(the claims proved about it depend only on membership and length, not on
the unspecified iteration order of a Python set).
-/

/-- JSON-like values, the payload type of the Python `Dict[str, Any]` /
`List[Any]` fields that flow through the orchestrator. -/
inductive Json where
  | str (s : String)
  | num (q : ℚ)
  | bool (b : Bool)
  | null
  | arr (elems : List Json)
  | obj (fields : List (String × Json))

/-- Lookup in an association-list dictionary (first binding wins, as in a
Python dict, whose keys are unique). -/
def dictGet (d : List (String × Json)) (k : String) : Option Json :=
  (d.find? (fun p => p.1 == k)).map (·.2)

/-- Python dict assignment `d[k] = v`: replace the existing binding in
place, or append a new one. -/
def dictSet (d : List (String × Json)) (k : String) (v : Json) :
    List (String × Json) :=
  if d.any (fun p => p.1 == k) then
    d.map (fun p => if p.1 == k then (k, v) else p)
  else
    d ++ [(k, v)]

/-- `core/reasoning_state.py`, `class ReasoningPhase(Enum)`. -/
inductive ReasoningPhase where
  | planning
  | execution
  | feedback
deriving DecidableEq

/-- `core/reasoning_state.py`, `@dataclass class ReasoningStep`.
`datetime` is embedded as a `Nat` tick; `confidence` and
`execution_time` (Python floats) as rationals. -/
structure ReasoningStep where
  phase : ReasoningPhase
  timestamp : Nat
  agent_name : String
  input_data : List (String × Json)
  output_data : List (String × Json)
  reasoning : String
  confidence : ℚ
  execution_time : ℚ

/-- `core/reasoning_state.py`, `@dataclass class ReasoningState`. -/
structure ReasoningState where
  session_id : String
  user_query : String
  current_phase : ReasoningPhase := ReasoningPhase.planning
  request_type : String := "other"
  reasoning_steps : List ReasoningStep := []
  context : List (String × Json) := []
  raw_data : List (String × Json) := []
  processed_data : List (String × Json) := []
  collected_data : List (String × Json) := []
  planning_results : List (String × Json) := []
  identified_issues : List Json := []
  recommendations : List Json := []
  action_plan : List Json := []
  start_time : Nat
  last_update : Nat
  total_confidence : ℚ := 0
  is_complete : Bool := false
  has_errors : Bool := false
  error_messages : List String := []

/-- A fresh `ReasoningState(session_id=..., user_query=...)` with every
defaulted dataclass field at its default; `start_time` and `last_update`
both default to `datetime.now()`, supplied here as `t`. -/
def initialState (session_id user_query : String) (t : Nat) : ReasoningState :=
  { session_id := session_id, user_query := user_query,
    start_time := t, last_update := t }

/-- Sum of the `confidence` fields of a list of steps
(`sum(s.confidence for s in steps)`). -/
def confSum (l : List ReasoningStep) : ℚ :=
  (l.map (fun s => s.confidence)).sum

/-- Arithmetic mean of the step confidences
(`sum(s.confidence for s in steps) / len(steps)`). -/
def confMean (l : List ReasoningStep) : ℚ :=
  confSum l / l.length

/-- `ReasoningState.add_reasoning_step`: append the step, touch
`last_update`, and (the appended list being non-empty) recompute
`total_confidence` as the mean of all step confidences.  The Python
guard `if self.reasoning_steps:` is kept as written. -/
def add_reasoning_step (now : Nat) (st : ReasoningState)
    (step : ReasoningStep) : ReasoningState :=
  let steps := st.reasoning_steps ++ [step]
  { st with
    reasoning_steps := steps,
    last_update := now,
    total_confidence :=
      if steps.isEmpty then st.total_confidence else confMean steps }

/-- `ReasoningState.set_phase`. -/
def set_phase (now : Nat) (st : ReasoningState) (phase : ReasoningPhase) :
    ReasoningState :=
  { st with current_phase := phase, last_update := now }

/-- `ReasoningState.add_error`: set `has_errors`, append the message,
touch `last_update`. -/
def add_error (now : Nat) (st : ReasoningState) (msg : String) :
    ReasoningState :=
  { st with
    has_errors := true,
    error_messages := st.error_messages ++ [msg],
    last_update := now }

/-- `ReasoningState.get_phase_steps`. -/
def get_phase_steps (st : ReasoningState) (phase : ReasoningPhase) :
    List ReasoningStep :=
  st.reasoning_steps.filter (fun s => s.phase = phase)

/-- `ReasoningState.get_latest_step`. -/
def get_latest_step (st : ReasoningState) : Option ReasoningStep :=
  st.reasoning_steps.getLast?

/-- The mutating interface of `ReasoningState`, plus a constructor for the
read-only summary methods (`get_phase_steps`, `get_latest_step`,
`get_execution_summary`, `to_dict`), which read attributes and assign
nothing, hence leave the state unchanged. -/
inductive StateOp where
  | addStep (now : Nat) (step : ReasoningStep)
  | setPhase (now : Nat) (phase : ReasoningPhase)
  | addError (now : Nat) (msg : String)
  | readSummaries

/-- One `ReasoningState` method call. -/
def applyOp (st : ReasoningState) : StateOp → ReasoningState
  | StateOp.addStep now step => add_reasoning_step now st step
  | StateOp.setPhase now phase => set_phase now st phase
  | StateOp.addError now msg => add_error now st msg
  | StateOp.readSummaries => st

/-- A sequence of `ReasoningState` method calls, first call first. -/
def runOps (st : ReasoningState) (ops : List StateOp) : ReasoningState :=
  ops.foldl applyOp st

/-- The step appended by an operation, if any. -/
def stepOf : StateOp → Option ReasoningStep
  | StateOp.addStep _ step => some step
  | _ => none

/-- The error message appended by an operation, if any. -/
def msgOf : StateOp → Option String
  | StateOp.addError _ msg => some msg
  | _ => none

/-- Whether an operation is an `add_error` call. -/
def isAddError : StateOp → Bool
  | StateOp.addError _ _ => true
  | _ => false

/-- The invariant claimed for `total_confidence`: `0.0` with no steps,
otherwise the mean of all step confidences. -/
def ConfInvariant (st : ReasoningState) : Prop :=
  st.total_confidence =
    if st.reasoning_steps.isEmpty then 0 else confMean st.reasoning_steps

lemma isEmpty_append_singleton {α : Type} (l : List α) (x : α) :
    (l ++ [x]).isEmpty = false := by
  cases l <;> rfl

lemma confInvariant_applyOp {st : ReasoningState} (h : ConfInvariant st)
    (op : StateOp) : ConfInvariant (applyOp st op) := by
  cases op with
  | addStep now step =>
      simp [ConfInvariant, applyOp, add_reasoning_step,
        isEmpty_append_singleton]
  | setPhase now phase => simpa [ConfInvariant, applyOp, set_phase] using h
  | addError now msg => simpa [ConfInvariant, applyOp, add_error] using h
  | readSummaries => simpa [ConfInvariant, applyOp] using h

lemma confInvariant_runOps {st : ReasoningState} (h : ConfInvariant st)
    (ops : List StateOp) : ConfInvariant (runOps st ops) := by
  induction ops generalizing st with
  | nil => simpa [runOps] using h
  | cons op ops ih =>
      simpa [runOps] using ih (confInvariant_applyOp h op)

lemma confInvariant_initial (sid q : String) (t : Nat) :
    ConfInvariant (initialState sid q t) := by
  simp [ConfInvariant, initialState]

/-- **C2.**  After any sequence of `ReasoningState` method calls starting
from a fresh state, `total_confidence` equals the arithmetic mean of the
confidences of the steps appended so far, and equals `0.0` while no step
exists; moreover neither `set_phase` nor `add_error` (nor a read) ever
changes `total_confidence`, so only `add_reasoning_step` can. -/
theorem total_confidence_is_running_mean (sid q : String) (t : Nat)
    (ops : List StateOp) :
    ((runOps (initialState sid q t) ops).total_confidence =
      if (runOps (initialState sid q t) ops).reasoning_steps.isEmpty then 0
      else confMean (runOps (initialState sid q t) ops).reasoning_steps)
    ∧ (∀ (st : ReasoningState) (now : Nat) (p : ReasoningPhase),
        (set_phase now st p).total_confidence = st.total_confidence)
    ∧ (∀ (st : ReasoningState) (now : Nat) (m : String),
        (add_error now st m).total_confidence = st.total_confidence)
    ∧ (∀ st : ReasoningState, (applyOp st StateOp.readSummaries).total_confidence
        = st.total_confidence) := by
  refine ⟨confInvariant_runOps (confInvariant_initial sid q t) ops, ?_, ?_, ?_⟩
  · intro st now p; rfl
  · intro st now m; rfl
  · intro st; rfl

/-- A concrete state used in counterexamples: a fresh session in the
planning phase. -/
def phaseDemoState : ReasoningState := initialState "sess-1" "query" 0

/-- A concrete execution-phase step with confidence 1/2. -/
def phaseDemoStep : ReasoningStep :=
  { phase := ReasoningPhase.execution, timestamp := 1, agent_name := "DataAgent",
    input_data := [], output_data := [], reasoning := "demo",
    confidence := 1/2, execution_time := 0 }

/-- **C3, counterexample.**  `add_reasoning_step` does *not* set
`current_phase` to the appended step's phase: appending an
execution-phase step to a planning-phase state leaves the state in the
planning phase (the source method only appends, touches `last_update`
and recomputes `total_confidence`; `set_phase` is a separate method). -/
theorem add_reasoning_step_does_not_set_phase :
    (add_reasoning_step 1 phaseDemoState phaseDemoStep).current_phase ≠
      phaseDemoStep.phase := by
  decide

/-- **C3, amended.**  `add_reasoning_step` appends the step at the end of
the step sequence (so step order equals call order), recomputes
`total_confidence` as the mean of all step confidences, and updates
`last_update` — but it leaves `current_phase` unchanged (changing the
phase is done by the separate `set_phase` method). -/
theorem add_reasoning_step_effects (now : Nat) (st : ReasoningState)
    (step : ReasoningStep) :
    (add_reasoning_step now st step).reasoning_steps
        = st.reasoning_steps ++ [step]
    ∧ (add_reasoning_step now st step).total_confidence
        = confMean (st.reasoning_steps ++ [step])
    ∧ (add_reasoning_step now st step).last_update = now
    ∧ (add_reasoning_step now st step).current_phase = st.current_phase := by
  refine ⟨rfl, ?_, rfl, rfl⟩
  simp [add_reasoning_step, isEmpty_append_singleton]

/-- **C9.**  The state only grows: after any sequence of method calls the
step list is the old list extended (in call order) by exactly the
appended steps, `error_messages` is the old list extended by exactly the
`add_error` messages, and `has_errors` is the old flag OR-ed with whether
some `add_error` occurred — so no call removes a step or a message, and
once `has_errors` is true it is never reset within the session. -/
theorem reasoning_state_append_only (st : ReasoningState)
    (ops : List StateOp) :
    (runOps st ops).reasoning_steps
        = st.reasoning_steps ++ ops.filterMap stepOf
    ∧ (runOps st ops).error_messages
        = st.error_messages ++ ops.filterMap msgOf
    ∧ (runOps st ops).has_errors = (st.has_errors || ops.any isAddError) := by
  induction ops generalizing st with
  | nil => simp [runOps]
  | cons op ops ih =>
      obtain ⟨h1, h2, h3⟩ := ih (applyOp st op)
      refine ⟨?_, ?_, ?_⟩ <;> cases op <;>
        simp_all [runOps, applyOp, add_reasoning_step, set_phase, add_error,
          stepOf, msgOf, isAddError, Bool.or_assoc]

/-!
## `core/orchestrator.py`

The orchestrator module never executes `import json`, yet calls
`json.loads` (planning and execution phases) and `json.dumps` (feedback
phase).  Every such call therefore raises
`NameError: name 'json' is not defined`; moreover the `except
(json.JSONDecodeError, ValueError)` clauses themselves raise `NameError`
when evaluated, so parse failures always escape to the surrounding
phase-level `except Exception` handler.  The embedding keeps these facts
exactly: `jsonLoads` below is the behaviour of a `json.loads` call site
in this module.
-/

/-- The `str(e)` text of the `NameError` raised at every `json.*` call
site of `core/orchestrator.py` (the module never imports `json`). -/
def nameErrorJson : String := "NameError: name json is not defined"

/-- A `json.loads(...)` call site in `core/orchestrator.py`: always
raises `NameError`, because the module never imports `json`. -/
def jsonLoads (_content : String) : Except String Json :=
  Except.error nameErrorJson

/-- The markdown-fence cleanup applied to LLM responses before parsing
(`response_content.strip()` followed by the ```` ```json ````-stripping
branches). -/
def stripCodeFences (content : String) : String :=
  let rc := content.trim
  if rc.startsWith "```json" then ((rc.replace "```json" "").replace "```" "").trim
  else if rc.startsWith "```" then (rc.replace "```" "").trim
  else rc

/-- Outcome of one `self.llm.ainvoke(messages)` call: the call either
raises, or returns a response whose `.content` is the given string. -/
inductive LLMOutcome where
  | raised (msg : String)
  | returned (content : String)

/-- Keyword tables of `_determine_data_requirements_fallback`
(orchestrator.py lines 109–137), verbatim from the source. -/
def cpuKeywords : List String :=
  ["cpu", "процессор", "load", "нагрузка", "загружен", "загрузка"]

/-- Memory-related keywords of the fallback. -/
def memoryKeywords : List String := ["memory", "память", "ram", "swap"]

/-- Disk-related keywords of the fallback. -/
def diskKeywords : List String := ["disk", "диск", "storage", "хранилище", "io"]

/-- Network-related keywords of the fallback. -/
def networkKeywords : List String :=
  ["network", "сеть", "traffic", "трафик", "connection"]

/-- Error/log-related keywords of the fallback. -/
def errorKeywords : List String := ["error", "ошибка", "log", "лог", "exception"]

/-- Performance-related keywords of the fallback. -/
def performanceKeywords : List String :=
  ["performance", "производительность", "slow", "медленно"]

/-- Server-load keywords of the fallback. -/
def serverKeywords : List String := ["сервер", "server", "загружен", "loaded"]

/-- `str.lower()`, embedded as ASCII per-character lowering (all
keyword matches relevant to the claims are on lowercase or ASCII
text). -/
def pyLower (s : String) : String := String.mk (s.data.map Char.toLower)

/-- `str.upper()`, embedded as ASCII per-character uppering (the
severity vocabularies it is compared against are ASCII). -/
def pyUpper (s : String) : String := String.mk (s.data.map Char.toUpper)

/-- Occurrence search: does `sub` occur contiguously in the list? -/
def subSearch (sub : List Char) : List Char → Bool
  | [] => sub.isEmpty
  | c :: rest => sub.isPrefixOf (c :: rest) || subSearch sub rest

/-- Python `keyword in query_lower` substring test. -/
def containsSub (s sub : String) : Bool :=
  subSearch sub.toList s.toList

/-- `any(keyword in query_lower for keyword in ...)`. -/
def anyKeyword (ql : String) (keywords : List String) : Bool :=
  keywords.any (fun k => containsSub ql k)

/-- `if x not in requirements: requirements.append(x)`. -/
def appendIfMissing (r : List String) (x : String) : List String :=
  if r.contains x then r else r ++ [x]

/-- The final default of the fallback:
`if not requirements: requirements = ["cpu_metrics", "memory_metrics"]`. -/
def orDefaultPair (r : List String) : List String :=
  if r.isEmpty then ["cpu_metrics", "memory_metrics"] else r

lemma orDefaultPair_ne_empty (r : List String) :
    (orDefaultPair r).isEmpty = false := by
  unfold orDefaultPair
  cases h : r.isEmpty with
  | true => simp [h]
  | false => simp [h]

/-- The `requirements` list built by
`_determine_data_requirements_fallback` (orchestrator.py lines 105–149):
keyword matching over the lowercased query, then the performance and
server blocks, then the default pair when nothing matched. -/
def fallbackRequirements (user_query : String) : List String :=
  let ql := pyLower user_query
  let r : List String := []
  let r := if anyKeyword ql cpuKeywords then r ++ ["cpu_metrics"] else r
  let r := if anyKeyword ql memoryKeywords then r ++ ["memory_metrics"] else r
  let r := if anyKeyword ql diskKeywords then r ++ ["disk_metrics"] else r
  let r := if anyKeyword ql networkKeywords then r ++ ["network_metrics"] else r
  let r := if anyKeyword ql errorKeywords then r ++ ["error_logs"] else r
  let r := if anyKeyword ql performanceKeywords then
      appendIfMissing (appendIfMissing (r ++ ["performance_logs"])
        "cpu_metrics") "memory_metrics"
    else r
  let r := if anyKeyword ql serverKeywords then
      appendIfMissing (appendIfMissing (appendIfMissing (appendIfMissing r
        "cpu_metrics") "memory_metrics") "disk_metrics") "network_metrics"
    else r
  orDefaultPair r

/-- `AIOrchestrator._determine_data_requirements_fallback`: the full
returned dictionary (requirements list, nested analysis plan, fixed
intent/services/priority). -/
def determine_data_requirements_fallback (user_query : String)
    (_llm_response : String) : List (String × Json) :=
  let requirements := fallbackRequirements user_query
  [("user_intent", Json.str "Запрос информации о состоянии системы"),
   ("analysis_plan", Json.obj
      [("data_requirements", Json.arr (requirements.map Json.str)),
       ("target_services", Json.arr [Json.str "system"]),
       ("priority", Json.str "high")]),
   ("data_requirements", Json.arr (requirements.map Json.str)),
   ("target_services", Json.arr [Json.str "system"]),
   ("priority", Json.str "high")]

/-- The five fields the planning phase validates in a parsed LLM
response. -/
def requiredPlanningFields : List String :=
  ["user_intent", "analysis_plan", "data_requirements", "target_services",
   "priority"]

/-- The success continuation of `_planning_phase` (orchestrator.py lines
261–294), i.e. the code run when `json.loads` returns.  In this
repository the branch is unreachable: `jsonLoads` always raises
(no `import json`).  When field validation fails, the code raises
`ValueError`, and — because evaluating the handler tuple
`(json.JSONDecodeError, ValueError)` itself raises `NameError` — control
escapes to the phase-level handler, not to the keyword fallback.  The
f-string `reasoning` text and the wall-clock `execution_time` of the
unreachable step are abbreviated. -/
def planningSuccess (now : Nat) (st : ReasoningState) (j : Json) :
    ReasoningState :=
  match j with
  | Json.obj kvs =>
      if requiredPlanningFields.all (fun f => kvs.any (fun p => p.1 == f)) then
        let step : ReasoningStep :=
          { phase := ReasoningPhase.planning, timestamp := now,
            agent_name := "PlanningAgent",
            input_data := [("user_query", Json.str st.user_query)],
            output_data := kvs,
            reasoning := "Analyzed user request and determined data requirements",
            confidence := 8/10, execution_time := 0 }
        let st := add_reasoning_step now st step
        let st := { st with planning_results := kvs }
        { st with processed_data := dictSet st.processed_data "planning" (Json.obj kvs) }
      else
        add_error now st ("Ошибка в фазе планирования: " ++ nameErrorJson)
  | _ => add_error now st ("Ошибка в фазе планирования: " ++ nameErrorJson)

/-- `AIOrchestrator._planning_phase`.  If the LLM call raises, the
phase-level handler records the error.  If it returns, the
`json.loads` call site raises `NameError` (no `import json`), the
`except (json.JSONDecodeError, ValueError)` clause raises `NameError`
again while being evaluated, and the phase-level handler records the
error — the keyword fallback is unreachable and `planning_results` is
never assigned. -/
def planning_phase (now : Nat) (llm : LLMOutcome) (st : ReasoningState) :
    ReasoningState :=
  match llm with
  | LLMOutcome.raised msg =>
      add_error now st ("Ошибка в фазе планирования: " ++ msg)
  | LLMOutcome.returned content =>
      match jsonLoads (stripCodeFences content) with
      | Except.error e => add_error now st ("Ошибка в фазе планирования: " ++ e)
      | Except.ok j => planningSuccess now st j

/-- The four metric data types of the execution-phase collection loop. -/
def knownMetricTypes : List String :=
  ["cpu_metrics", "memory_metrics", "disk_metrics", "network_metrics"]

/-- The two log data types of the execution-phase collection loop. -/
def knownLogTypes : List String := ["error_logs", "performance_logs"]

/-- The call site `self.data_agent.collect_system_metrics(data_type)`:
`DataAgent` (agents/data_agent.py) defines no method of this name, so
the call always raises `AttributeError`. -/
def collect_system_metrics (_data_type : String) : Except String Json :=
  Except.error "AttributeError: DataAgent object has no attribute collect_system_metrics"

/-- The call site `self.data_agent.collect_logs(data_type)`: `DataAgent`
defines no method of this name, so the call always raises
`AttributeError`. -/
def collect_logs (_data_type : String) : Except String Json :=
  Except.error "AttributeError: DataAgent object has no attribute collect_logs"

/-- Accumulator of the execution-phase collection loop:
`raw_data`, `successful_types`, `failed_types`. -/
structure CollectAcc where
  raw_data : List (String × Json)
  successful : List String
  failed : List String

/-- One iteration of the collection loop (orchestrator.py lines
324–335): a known metric or log type is fetched inside a per-tag
`try`; on success the datum and the tag are recorded, on any exception
only `failed_types` grows and the loop continues; an unknown tag is
silently skipped. -/
def collectOne (acc : CollectAcc) (data_type : String) : CollectAcc :=
  if knownMetricTypes.contains data_type then
    match collect_system_metrics data_type with
    | Except.ok d =>
        { acc with raw_data := acc.raw_data ++ [(data_type, d)],
                   successful := acc.successful ++ [data_type] }
    | Except.error _ => { acc with failed := acc.failed ++ [data_type] }
  else if knownLogTypes.contains data_type then
    match collect_logs data_type with
    | Except.ok d =>
        { acc with raw_data := acc.raw_data ++ [(data_type, d)],
                   successful := acc.successful ++ [data_type] }
    | Except.error _ => { acc with failed := acc.failed ++ [data_type] }
  else acc

/-- The whole collection loop over `data_requirements`. -/
def collectLoop (reqs : List String) : CollectAcc :=
  reqs.foldl collectOne ⟨[], [], []⟩

/-- `planning_results.get("data_requirements", ["cpu_metrics",
"memory_metrics"])`, as consumed by the execution phase.  In every run
of this repository `planning_results` is still the empty dict (the
planning phase never assigns it), so the default pair is returned; a
stored list is read back element-wise (a non-string element matches none
of the six known type names in the loop, which the `filterMap`
reflects). -/
def getDataRequirements (planning_results : List (String × Json)) :
    List String :=
  match dictGet planning_results "data_requirements" with
  | some (Json.arr l) =>
      l.filterMap (fun j => match j with | Json.str s => some s | _ => none)
  | some _ => []
  | none => ["cpu_metrics", "memory_metrics"]

/-- The `str(e)` of the exception ending every execution phase:
`ProtocolAgent` (agents/protocol_agent.py) defines no
`analyze_protocols`, so the call at orchestrator.py line 358 raises
`AttributeError`. -/
def analyzeProtocolsError : String :=
  "AttributeError: ProtocolAgent object has no attribute analyze_protocols"

/-- `AIOrchestrator._execution_phase`.  The data-collection loop runs
and its `DataAgent` step is appended (confidence 0.9 with no failed tag,
0.7 otherwise); the subsequent `self.protocol_agent.analyze_protocols`
call raises `AttributeError` (no such method), so the phase-level
handler records a session error and the LLM analysis is never reached.
`failed_types` exists only in this loop: it is printed and lowers the
step confidence, but is not stored in the state. -/
def execution_phase (now : Nat) (dataElapsed : ℚ) (st : ReasoningState) :
    ReasoningState :=
  let data_requirements := getDataRequirements st.planning_results
  let acc := collectLoop data_requirements
  let data_step : ReasoningStep :=
    { phase := ReasoningPhase.execution, timestamp := now,
      agent_name := "DataAgent",
      input_data := [("data_requirements",
        Json.arr (data_requirements.map Json.str))],
      output_data := acc.raw_data,
      reasoning := "Collected " ++ toString acc.successful.length
        ++ " data types successfully",
      confidence := if acc.failed.isEmpty then 9/10 else 7/10,
      execution_time := dataElapsed }
  let st := add_reasoning_step now st data_step
  add_error now st ("Ошибка в фазе выполнения: " ++ analyzeProtocolsError)

/-- The `str(e)` of the exception ending every feedback phase:
`generate_recommendations(self, analysis_data)` takes one argument but
orchestrator.py line 458 passes two. -/
def generateRecommendationsArityError : String :=
  "TypeError: generate_recommendations takes 2 positional arguments but 3 were given"

/-- `AIOrchestrator._feedback_phase`.  The first statement of the `try`
block calls `self.protocol_agent.generate_recommendations` with two
arguments although the method accepts one, raising `TypeError`; the
phase-level handler records it and returns.  Nothing else in the body
runs, and no code path in the repository ever assigns `is_complete`. -/
def feedback_phase (now : Nat) (st : ReasoningState) : ReasoningState :=
  add_error now st ("Ошибка в фазе обратной связи: "
    ++ generateRecommendationsArityError)

/-- The dataclass fields of `ReasoningState`, i.e. the keyword arguments
its generated `__init__` accepts. -/
def reasoningStateFieldNames : List String :=
  ["session_id", "user_query", "current_phase", "request_type",
   "reasoning_steps", "context", "raw_data", "processed_data",
   "collected_data", "planning_results", "identified_issues",
   "recommendations", "action_plan", "start_time", "last_update",
   "total_confidence", "is_complete", "has_errors", "error_messages"]

/-- The keyword arguments `process_query` passes to `ReasoningState`
(orchestrator.py lines 204–208). -/
def processQueryInitKwargs : List String :=
  ["session_id", "user_query", "timestamp"]

/-- The environment of one `process_query` run: the generated session
id, the `datetime.now()` ticks and `time.time()` deltas observed, and
the planning LLM outcome (later LLM calls are never reached). -/
structure OrchestrationEnv where
  sessionId : String
  initNow : Nat
  planNow : Nat
  planLLM : LLMOutcome
  execNow : Nat
  execElapsed : ℚ
  fbNow : Nat

/-- `AIOrchestrator.process_query`.  The state construction
`ReasoningState(session_id=..., user_query=..., timestamp=datetime.now())`
happens *before* the `try` block; a keyword argument that is not a
dataclass field makes the generated `__init__` raise `TypeError`, which
therefore propagates to the caller.  Only with acceptable keywords would
the three phases run and the state be returned. -/
def process_query (env : OrchestrationEnv) (user_query : String) :
    Except String ReasoningState :=
  match processQueryInitKwargs.find?
      (fun k => !(reasoningStateFieldNames.contains k)) with
  | some k => Except.error ("TypeError: unexpected keyword argument " ++ k)
  | none =>
      let st := initialState env.sessionId user_query env.initNow
      Except.ok (feedback_phase env.fbNow
        (execution_phase env.execNow env.execElapsed
          (planning_phase env.planNow env.planLLM st)))

lemma processQueryBadKwarg :
    processQueryInitKwargs.find?
      (fun k => !(reasoningStateFieldNames.contains k)) = some "timestamp" := by
  decide

/-- **C1.**  `process_query` never returns a `ReasoningState`: for every
query and every environment it raises
`TypeError: __init__() got an unexpected keyword argument 'timestamp'`,
because the state is constructed with a `timestamp=` keyword that is not
a field of the `ReasoningState` dataclass, and this construction sits
before the `try` block that was meant to guarantee degradation to
`has_errors`/`error_messages`. -/
theorem process_query_always_raises (env : OrchestrationEnv)
    (user_query : String) :
    process_query env user_query =
      Except.error ("TypeError: unexpected keyword argument " ++ "timestamp") := by
  simp only [process_query, processQueryBadKwarg]

/-- The query of the specification's fallback example. -/
def c5Query : String := "why is the server slow?"

/-- The planning phase applied to that query with an LLM response that
is not valid JSON. -/
def c5State : ReasoningState :=
  planning_phase 1 (LLMOutcome.returned "this is not valid json")
    (initialState "s5" c5Query 0)

/-- **C5.**  With an invalid-JSON LLM response on the query
"why is the server slow?", the planning phase records a `NameError`
session error and leaves `planning_results` empty — the keyword fallback
never runs (orchestrator.py has no `import json`, so both `json.loads`
and the `except (json.JSONDecodeError, ValueError)` clause raise
`NameError`).  The execution phase then reads the hard-coded default
`["cpu_metrics", "memory_metrics"]` instead of the fallback's output.
The fallback function itself does have the claimed property: its
requirements list is never empty, and for this query it would have
produced the five types starting with `performance_logs`, including
`cpu_metrics` and `memory_metrics`. -/
theorem planning_fallback_is_unreachable :
    c5State.has_errors = true
    ∧ c5State.planning_results = []
    ∧ c5State.error_messages
        = ["Ошибка в фазе планирования: " ++ nameErrorJson]
    ∧ getDataRequirements c5State.planning_results
        = ["cpu_metrics", "memory_metrics"]
    ∧ fallbackRequirements c5Query
        = ["performance_logs", "cpu_metrics", "memory_metrics",
           "disk_metrics", "network_metrics"]
    ∧ (∀ q : String, (fallbackRequirements q).isEmpty = false) := by
  refine ⟨rfl, rfl, rfl, rfl, by decide, ?_⟩
  intro q
  unfold fallbackRequirements
  exact orDefaultPair_ne_empty _

/-- A session state whose planning results request three metric types,
with no error recorded yet. -/
def c6State : ReasoningState :=
  { initialState "s6" "check cpu memory disk" 0 with
    planning_results :=
      [("data_requirements", Json.arr
        [Json.str "cpu_metrics", Json.str "memory_metrics",
         Json.str "disk_metrics"])] }

/-- **C6.**  The collection loop is per-tag isolated as claimed — a tag
whose collector call raises is appended to `failed_types` and the loop
continues with the remaining tags — but in this repository *every*
collector call raises `AttributeError` (`DataAgent` defines neither
`collect_system_metrics` nor `collect_logs`), so no tag ever succeeds
and `raw_data` stays empty; and the phase then calls the nonexistent
`ProtocolAgent.analyze_protocols`, whose `AttributeError` is recorded as
a session error: `has_errors` does **not** stay false.  The only trace
of the collector failures is the lowered step confidence 0.7. -/
theorem execution_phase_collector_failures :
    (collectLoop ["cpu_metrics", "memory_metrics", "disk_metrics"]).raw_data = []
    ∧ (collectLoop ["cpu_metrics", "memory_metrics", "disk_metrics"]).successful = []
    ∧ (collectLoop ["cpu_metrics", "memory_metrics", "disk_metrics"]).failed
        = ["cpu_metrics", "memory_metrics", "disk_metrics"]
    ∧ c6State.has_errors = false
    ∧ (execution_phase 1 0 c6State).has_errors = true
    ∧ (execution_phase 1 0 c6State).error_messages
        = ["Ошибка в фазе выполнения: " ++ analyzeProtocolsError]
    ∧ (execution_phase 1 0 c6State).reasoning_steps.map (fun s => s.confidence)
        = [7/10] := by
  refine ⟨rfl, rfl, by decide, rfl, rfl, rfl, rfl⟩

/-- A fresh session state for the feedback-phase counterexample. -/
def c8State : ReasoningState := initialState "s8" "status?" 0

/-- **C8, counterexample.**  The feedback phase finishes (it never
propagates an exception: its whole body is wrapped in `try`/`except`)
and yet `is_complete` of the resulting state is `false`, both on a fresh
state and at the end of a full three-phase run — the repository contains
no assignment to `is_complete` at all, so it can never become `true`. -/
theorem feedback_phase_leaves_is_complete_false :
    (feedback_phase 1 c8State).is_complete = false
    ∧ (feedback_phase 3 (execution_phase 2 0
        (planning_phase 1 (LLMOutcome.returned "{}") c8State))).is_complete
      = false := ⟨rfl, rfl⟩

/-- **C8, amended.**  No operation of the repository ever assigns
`is_complete`: each of the three phases and every `ReasoningState`
method call leaves it unchanged, so it keeps its initial value `false`
for the whole session — in particular it is never `true` before the
feedback phase finishes, and not after it either. -/
theorem is_complete_never_assigned (st : ReasoningState) (now : Nat)
    (llm : LLMOutcome) (elapsed : ℚ) (ops : List StateOp) :
    (planning_phase now llm st).is_complete = st.is_complete
    ∧ (execution_phase now elapsed st).is_complete = st.is_complete
    ∧ (feedback_phase now st).is_complete = st.is_complete
    ∧ (runOps st ops).is_complete = st.is_complete := by
  refine ⟨?_, rfl, rfl, ?_⟩
  · cases llm <;> rfl
  · induction ops generalizing st with
    | nil => rfl
    | cons op ops ih =>
        have h1 : (runOps st (op :: ops)).is_complete
            = (runOps (applyOp st op) ops).is_complete := rfl
        have h2 : (applyOp st op).is_complete = st.is_complete := by
          cases op <;> rfl
        rw [h1, ih, h2]

/-!
## `agents/protocol_agent.py`

This module does import `json` and its methods below are fully
functional.  `analyze_metrics` reads its thresholds from
`self.rules["protocol_rules"]["metric_thresholds"]` and its
service-specific rules from
`self.rules["protocol_rules"]["service_specific_rules"]`; the rules
tables are a constructor input (built-in defaults, optionally merged
with a rules file), embedded here as an explicit `ProtocolRules`
argument.  Note the built-in `default_rules` dictionary has no
`"protocol_rules"` key at all, so a default-constructed agent sees both
tables empty.
-/

/-- One entry of `metric_thresholds`: `rule.get("warning", float('inf'))`
and `rule.get("critical", float('inf'))` are embedded as `Option ℚ`,
`none` meaning the `float('inf')` default — a finite value is never `≥`
that default, which `geOpt` below reflects. -/
structure ThresholdRule where
  warning : Option ℚ
  critical : Option ℚ
  recommendations : List String
deriving DecidableEq

/-- One entry of `service_specific_rules`, with the same
`float('inf')` convention. -/
structure ServiceRule where
  max_requests_per_second : Option ℚ
  max_response_time : Option ℚ
deriving DecidableEq

/-- The two tables `analyze_metrics` reads from `self.rules`. -/
structure ProtocolRules where
  metric_thresholds : List (String × ThresholdRule)
  service_specific_rules : List (String × ServiceRule)

/-- The tables seen by a default-constructed `ProtocolAgent`: the
built-in `default_rules` have no `"protocol_rules"` key, so both lookups
give the empty dict. -/
def defaultProtocolRules : ProtocolRules := ⟨[], []⟩

/-- An issue appended by `analyze_metrics`. -/
structure MetricIssue where
  metric : String
  value : ℚ
  threshold : ℚ
  severity : String
  message : String
deriving DecidableEq

/-- The issue appended when `value >= critical_threshold` (the f-string
message's numeral rendering is not embedded). -/
def criticalIssue (name : String) (v c : ℚ) : MetricIssue :=
  { metric := name, value := v, threshold := c, severity := "critical",
    message := name ++ " is critically high" }

/-- The issue appended when `value >= warning_threshold` (below
critical). -/
def warningIssue (name : String) (v w : ℚ) : MetricIssue :=
  { metric := name, value := v, threshold := w, severity := "warning",
    message := name ++ " is above warning threshold" }

/-- The `elif value >= warning_threshold` arm of the classification. -/
def warningPart (tr : ThresholdRule) (name : String) (v : ℚ) :
    List MetricIssue × List String :=
  match tr.warning with
  | some w =>
      if w ≤ v then ([warningIssue name v w], tr.recommendations)
      else ([], [])
  | none => ([], [])

/-- One iteration of the `for metric_name, value in metric_values.items()`
loop: the metric is looked up in the thresholds table; `value >=
critical_threshold` yields a critical issue, otherwise `value >=
warning_threshold` a warning issue, otherwise nothing; either issue also
extends the recommendations with the rule's. -/
def entryIssueAndRecs (thr : List (String × ThresholdRule)) (name : String)
    (v : ℚ) : List MetricIssue × List String :=
  match thr.lookup name with
  | none => ([], [])
  | some tr =>
      match tr.critical with
      | some c =>
          if c ≤ v then ([criticalIssue name v c], tr.recommendations)
          else warningPart tr name v
      | none => warningPart tr name v

/-- All issues appended by the thresholds loop, in iteration order. -/
def thresholdIssues (thr : List (String × ThresholdRule))
    (mv : List (String × ℚ)) : List MetricIssue :=
  (mv.map (fun p => (entryIssueAndRecs thr p.1 p.2).1)).flatten

/-- All recommendations appended by the thresholds loop. -/
def thresholdRecs (thr : List (String × ThresholdRule))
    (mv : List (String × ℚ)) : List String :=
  (mv.map (fun p => (entryIssueAndRecs thr p.1 p.2).2)).flatten

/-- The service-specific block of `analyze_metrics` (`if service_rules:`
— an absent entry is the empty, falsy dict): strict `>` comparisons of
`requests_per_second` and `response_time_avg` (defaulting to 0) against
the service's limits, each exceedance appending a warning issue. -/
def serviceIssues (sr : Option ServiceRule) (mv : List (String × ℚ)) :
    List MetricIssue :=
  match sr with
  | none => []
  | some r =>
      let rps := (mv.lookup "requests_per_second").getD 0
      let response_time := (mv.lookup "response_time_avg").getD 0
      (match r.max_requests_per_second with
       | some m =>
           if m < rps then
             [{ metric := "requests_per_second", value := rps, threshold := m,
                severity := "warning",
                message := "Request rate exceeds service limit" }]
           else []
       | none => []) ++
      (match r.max_response_time with
       | some m =>
           if m < response_time then
             [{ metric := "response_time_avg", value := response_time,
                threshold := m, severity := "warning",
                message := "Response time exceeds service limit" }]
           else []
       | none => [])

/-- The result record of `analyze_metrics` (the `timestamp` passthrough
and `analysis_timestamp` wall-clock string are not embedded). -/
structure MetricsAnalysis where
  service : String
  total_issues : Nat
  issues : List MetricIssue
  recommendations : List String
  status : String

/-- `ProtocolAgent.analyze_metrics`, with `service =
metrics.get("service", "unknown")` and the (dict-checked)
`metrics.get("metrics", {})` supplied as arguments. -/
def analyze_metrics (rules : ProtocolRules) (service : String)
    (metric_values : List (String × ℚ)) : MetricsAnalysis :=
  let issues := thresholdIssues rules.metric_thresholds metric_values
      ++ serviceIssues (rules.service_specific_rules.lookup service)
          metric_values
  { service := service,
    total_issues := issues.length,
    issues := issues,
    recommendations := (thresholdRecs rules.metric_thresholds metric_values).dedup,
    status :=
      if issues.any (fun i => i.severity == "critical") then "critical"
      else if issues.isEmpty then "healthy" else "warning" }

/-- `ProtocolAgent._determine_severity` (the `error_code` parameter is
accepted and ignored, as in the source). -/
def determine_severity (level _error_code : String) : String :=
  if pyUpper level ∈ (["CRITICAL", "FATAL", "ERROR"] : List String) then "high"
  else if pyUpper level ∈ (["WARNING", "WARN"] : List String) then "medium"
  else "low"

/-- **C7, counterexample.**  A log of level `"ERROR"` is classified
`"high"`, not `"low"`: the source's first vocabulary is
`['CRITICAL', 'FATAL', 'ERROR']`, so `ERROR` does not fall through to
the `else` branch as the claim states. -/
theorem determine_severity_error_is_high :
    determine_severity "ERROR" "E1" = "high"
    ∧ determine_severity "ERROR" "E1" ≠ "low" := by
  refine ⟨rfl, by decide⟩

/-- **C7, amended.**  `_determine_severity` maps the level string
case-insensitively (via `level.upper()`): CRITICAL, FATAL **or ERROR**
to `high`; WARNING or WARN to `medium`; and every other level (including
INFO) to `low`. -/
theorem determine_severity_spec (level ec : String) :
    (pyUpper level ∈ (["CRITICAL", "FATAL", "ERROR"] : List String) →
      determine_severity level ec = "high")
    ∧ (pyUpper level ∈ (["WARNING", "WARN"] : List String) →
      determine_severity level ec = "medium")
    ∧ (pyUpper level ∉ (["CRITICAL", "FATAL", "ERROR"] : List String) →
       pyUpper level ∉ (["WARNING", "WARN"] : List String) →
      determine_severity level ec = "low") := by
  refine ⟨?_, ?_, ?_⟩
  · intro h
    simp only [determine_severity, if_pos h]
  · intro h
    have h' : pyUpper level = "WARNING" ∨ pyUpper level = "WARN" := by
      simpa using h
    have h1 : pyUpper level ∉ (["CRITICAL", "FATAL", "ERROR"] : List String) := by
      rcases h' with h' | h' <;> rw [h'] <;> decide
    simp only [determine_severity, if_neg h1, if_pos h]
  · intro h1 h2
    simp only [determine_severity, if_neg h1, if_neg h2]

/-- Witness for the amended C7 theorem: `"Warn"` (mixed case) maps to
`medium`, and `"info"` maps to `low`. -/
theorem determine_severity_spec_witness :
    determine_severity "Warn" "X" = "medium"
    ∧ determine_severity "info" "X" = "low" :=
  ⟨(determine_severity_spec "Warn" "X").2.1 (by decide),
   (determine_severity_spec "info" "X").2.2 (by decide) (by decide)⟩

lemma mem_thresholdIssues {thr : List (String × ThresholdRule)}
    {mv : List (String × ℚ)} {name : String} {v : ℚ}
    (hmem : (name, v) ∈ mv) {i : MetricIssue}
    (hi : i ∈ (entryIssueAndRecs thr name v).1) :
    i ∈ thresholdIssues thr mv := by
  unfold thresholdIssues
  rw [List.mem_flatten]
  exact ⟨(entryIssueAndRecs thr name v).1,
    List.mem_map_of_mem (fun p => (entryIssueAndRecs thr p.1 p.2).1) hmem, hi⟩

lemma thresholdIssues_mem {thr : List (String × ThresholdRule)}
    {mv : List (String × ℚ)} {i : MetricIssue}
    (hi : i ∈ thresholdIssues thr mv) :
    ∃ p ∈ mv, i ∈ (entryIssueAndRecs thr p.1 p.2).1 := by
  unfold thresholdIssues at hi
  rw [List.mem_flatten] at hi
  obtain ⟨s, hs, his⟩ := hi
  rw [List.mem_map] at hs
  obtain ⟨p, hp, rfl⟩ := hs
  exact ⟨p, hp, his⟩

lemma warningPart_metric {tr : ThresholdRule} {name : String} {v : ℚ}
    {i : MetricIssue} (h : i ∈ (warningPart tr name v).1) :
    i.metric = name := by
  unfold warningPart at h
  split at h
  · split at h
    · simp only [List.mem_singleton] at h
      rw [h]; rfl
    · simp at h
  · simp at h

lemma entryIssue_metric {thr : List (String × ThresholdRule)}
    {name : String} {v : ℚ} {i : MetricIssue}
    (h : i ∈ (entryIssueAndRecs thr name v).1) : i.metric = name := by
  unfold entryIssueAndRecs at h
  split at h
  · simp at h
  · split at h
    · split at h
      · simp only [List.mem_singleton] at h
        rw [h]; rfl
      · exact warningPart_metric h
    · exact warningPart_metric h

lemma entryIssue_nil_of_lt {thr : List (String × ThresholdRule)}
    {name : String} {v w c : ℚ} {tr : ThresholdRule}
    (hthr : thr.lookup name = some tr) (hw : tr.warning = some w)
    (hc : tr.critical = some c) (hwc : w ≤ c) (hvw : v < w) :
    (entryIssueAndRecs thr name v).1 = [] := by
  have hvc : ¬ (c ≤ v) := not_le.mpr (lt_of_lt_of_le hvw hwc)
  have hvw' : ¬ (w ≤ v) := not_le.mpr hvw
  simp [entryIssueAndRecs, hthr, hc, hvc, warningPart, hw, hvw']

/-- **C4.**  The threshold classification of `analyze_metrics`: for a
metric present in the thresholds table with warning threshold `w` and
critical threshold `c` (`w ≤ c`), an observed value `v` yields a
critical issue when `v ≥ c` (the critical boundary is inclusive), a
warning issue when `w ≤ v < c`, and no issue at all for that metric when
`v < w` (here with no service-specific rule for the metric set's
service, as with the agent's built-in rules). -/
theorem analyze_metrics_threshold_classification (rules : ProtocolRules)
    (service name : String) (mv : List (String × ℚ)) (v w c : ℚ)
    (tr : ThresholdRule)
    (hthr : rules.metric_thresholds.lookup name = some tr)
    (hw : tr.warning = some w) (hc : tr.critical = some c) (hwc : w ≤ c)
    (hmem : (name, v) ∈ mv)
    (huniq : ∀ p ∈ mv, p.1 = name → p.2 = v)
    (hsvc : rules.service_specific_rules.lookup service = none) :
    (c ≤ v → criticalIssue name v c ∈ (analyze_metrics rules service mv).issues)
    ∧ (w ≤ v → v < c →
        warningIssue name v w ∈ (analyze_metrics rules service mv).issues)
    ∧ (v < w →
        ∀ i ∈ (analyze_metrics rules service mv).issues, i.metric ≠ name) := by
  have hissues : (analyze_metrics rules service mv).issues
      = thresholdIssues rules.metric_thresholds mv := by
    simp [analyze_metrics, hsvc, serviceIssues]
  refine ⟨?_, ?_, ?_⟩
  · intro hcv
    rw [hissues]
    refine mem_thresholdIssues hmem ?_
    simp [entryIssueAndRecs, hthr, hc, hcv]
  · intro hwv hvc
    rw [hissues]
    refine mem_thresholdIssues hmem ?_
    have hvc' : ¬ (c ≤ v) := not_le.mpr hvc
    simp [entryIssueAndRecs, hthr, hc, hvc', warningPart, hw, hwv]
  · intro hvw i hi heq
    rw [hissues] at hi
    obtain ⟨p, hp, hip⟩ := thresholdIssues_mem hi
    have hpname : p.1 = name := by rw [← entryIssue_metric hip, heq]
    have hpv : p.2 = v := huniq p hp hpname
    rw [hpname, hpv, entryIssue_nil_of_lt hthr hw hc hwc hvw] at hip
    simp at hip

/-- The spec's example rules: `cpu_usage` with warning 80 and
critical 90. -/
def c4Rules : ProtocolRules :=
  ⟨[("cpu_usage", ⟨some 80, some 90, []⟩)], []⟩

/-- Witness for C4 at the spec's three examples: `cpu_usage = 95` yields
a critical issue, `85` a warning issue, and `50` yields no issue for
`cpu_usage`. -/
theorem analyze_metrics_threshold_classification_witness :
    (criticalIssue "cpu_usage" 95 90
      ∈ (analyze_metrics c4Rules "unknown" [("cpu_usage", 95)]).issues)
    ∧ (warningIssue "cpu_usage" 85 80
      ∈ (analyze_metrics c4Rules "unknown" [("cpu_usage", 85)]).issues)
    ∧ (∀ i ∈ (analyze_metrics c4Rules "unknown" [("cpu_usage", 50)]).issues,
        i.metric ≠ "cpu_usage") :=
  ⟨(analyze_metrics_threshold_classification c4Rules "unknown" "cpu_usage"
      [("cpu_usage", 95)] 95 80 90 ⟨some 80, some 90, []⟩ (by decide)
      (by decide) (by decide) (by decide) (by decide) (by decide)
      (by decide)).1 (by decide),
   (analyze_metrics_threshold_classification c4Rules "unknown" "cpu_usage"
      [("cpu_usage", 85)] 85 80 90 ⟨some 80, some 90, []⟩ (by decide)
      (by decide) (by decide) (by decide) (by decide) (by decide)
      (by decide)).2.1 (by decide) (by decide),
   (analyze_metrics_threshold_classification c4Rules "unknown" "cpu_usage"
      [("cpu_usage", 50)] 50 80 90 ⟨some 80, some 90, []⟩ (by decide)
      (by decide) (by decide) (by decide) (by decide) (by decide)
      (by decide)).2.2 (by decide)⟩

/-- A log record as consumed by `analyze_error_log` / `analyze_logs`,
with the `.get` defaults as field defaults.  (A Python log dict missing
`"level"` reads `"INFO"` in `analyze_error_log` but `""` in the counting
loop of `analyze_logs`; the embedding models records carrying all four
fields, on which both reads agree.) -/
structure ErrorLog where
  error_code : String := "UNKNOWN"
  service : String := "unknown"
  level : String := "INFO"
  message : String := ""

/-- `ProtocolAgent._generate_generic_recommendations`: three generic
entries, plus three more when the (raw, not uppercased) level is
`CRITICAL` or `ERROR`. -/
def generate_generic_recommendations (log : ErrorLog) : List String :=
  ["Review " ++ log.service ++ " service logs for additional context",
   "Check service health and resource utilization",
   "Verify service configuration and dependencies"]
  ++ (if log.level ∈ (["CRITICAL", "ERROR"] : List String) then
        ["Consider implementing retry mechanisms",
         "Set up monitoring and alerting for this error type",
         "Review error handling in the application code"]
      else [])

/-- `ProtocolAgent._get_immediate_actions`: three actions for
CRITICAL/FATAL, three for ERROR, two otherwise (case-insensitive). -/
def get_immediate_actions (level : String) : List String :=
  if pyUpper level ∈ (["CRITICAL", "FATAL"] : List String) then
    ["Немедленно уведомить команду",
     "Проверить состояние сервиса",
     "Подготовить план восстановления"]
  else if pyUpper level = "ERROR" then
    ["Проанализировать детали ошибки",
     "Проверить логи сервиса",
     "Мониторить повторения"]
  else
    ["Зафиксировать в системе мониторинга",
     "Проверить тренды"]

/-- `ProtocolAgent._categorize_error`. -/
def categorize_error (error_code : String) : String :=
  if containsSub (pyUpper error_code) "AUTH" then "authentication"
  else if containsSub (pyUpper error_code) "CONN"
      || containsSub (pyUpper error_code) "NETWORK" then "connectivity"
  else if containsSub (pyUpper error_code) "DB"
      || containsSub (pyUpper error_code) "DATABASE" then "database"
  else if containsSub (pyUpper error_code) "API" then "api"
  else "general"

/-- The analysis record built by `analyze_error_log` (the `timestamp`
passthrough and the `analysis_timestamp` wall-clock string are not
embedded). -/
structure ErrorLogAnalysis where
  error_code : String
  service : String
  level : String
  message : String
  severity : String
  category : String
  recommendations : List String
  immediate_actions : List String

/-- `ProtocolAgent.analyze_error_log`. -/
def analyze_error_log (log : ErrorLog) : ErrorLogAnalysis :=
  { error_code := log.error_code, service := log.service,
    level := log.level, message := log.message,
    severity := determine_severity log.level log.error_code,
    category := categorize_error log.error_code,
    recommendations := generate_generic_recommendations log,
    immediate_actions := get_immediate_actions log.level }

/-- The `summary` block of `analyze_logs`. -/
structure LogsSummary where
  critical_count : Nat
  error_count : Nat
  warning_count : Nat
  total_issues : Nat

/-- The result record of `analyze_logs`. -/
structure LogsAnalysis where
  total_logs : Nat
  analyzed_logs : List ErrorLogAnalysis
  summary : LogsSummary
  recommendations : List String
  action_plan : List String

/-- `ProtocolAgent.analyze_logs`: the empty-input early return, else a
per-log `analyze_error_log`, level counting (on the uppercased level),
concatenation of all recommendations and immediate actions,
deduplication (`list(set(...))`, embedded as `dedup`), and the `[:10]`
caps. -/
def analyze_logs (logs : List ErrorLog) : LogsAnalysis :=
  if logs.isEmpty then
    { total_logs := 0, analyzed_logs := [],
      summary := ⟨0, 0, 0, 0⟩, recommendations := [], action_plan := [] }
  else
    let analyzed := logs.map analyze_error_log
    let critical_count := logs.countP (fun l => pyUpper l.level == "CRITICAL")
    let error_count := logs.countP (fun l => pyUpper l.level == "ERROR")
    let warning_count := logs.countP (fun l => pyUpper l.level == "WARNING")
    let all_recommendations :=
      (analyzed.map (fun a => a.recommendations)).flatten
    let all_actions := (analyzed.map (fun a => a.immediate_actions)).flatten
    { total_logs := logs.length,
      analyzed_logs := analyzed,
      summary := ⟨critical_count, error_count, warning_count,
        critical_count + error_count + warning_count⟩,
      recommendations := all_recommendations.dedup.take 10,
      action_plan := all_actions.dedup.take 10 }

/-- The status-based default recommendations of
`generate_recommendations`. -/
def statusDefaultRecommendations (status : String) : List Json :=
  if status = "critical" then
    [Json.str "Immediate investigation required",
     Json.str "Check system resources and logs",
     Json.str "Consider scaling or failover procedures",
     Json.str "Alert operations team"]
  else if status = "warning" then
    [Json.str "Monitor system closely",
     Json.str "Review recent changes",
     Json.str "Check resource utilization trends",
     Json.str "Plan preventive maintenance"]
  else
    [Json.str "Continue regular monitoring",
     Json.str "Review system performance metrics",
     Json.str "Update documentation if needed"]

/-- `ProtocolAgent.generate_recommendations` (one `analysis_data`
argument, as defined in the source): collect the `"recommendations"`
value (a list is extended element-wise, a bare string appended, any
other value contributes nothing), fall back to status-based defaults
when nothing was collected (a non-string status matches neither
`"critical"` nor `"warning"`), and return at most the first 10. -/
def generate_recommendations (analysis_data : List (String × Json)) :
    List Json :=
  let recommendations : List Json :=
    match dictGet analysis_data "recommendations" with
    | some (Json.arr l) => l
    | some (Json.str s) => [Json.str s]
    | _ => []
  let recommendations :=
    if recommendations.isEmpty then
      statusDefaultRecommendations
        (match dictGet analysis_data "status" with
         | some (Json.str s) => s
         | some _ => ""
         | none => "unknown")
    else recommendations
  recommendations.take 10

/-- **C10.**  For every input, `generate_recommendations` returns at
most 10 recommendations, and `analyze_logs` returns at most 10
recommendations and at most 10 action-plan entries — the `[:10]` caps,
applied after `list(set(...))` deduplication (and trivially satisfied by
the empty-input early return). -/
theorem recommendation_caps (logs : List ErrorLog)
    (analysis_data : List (String × Json)) :
    (analyze_logs logs).recommendations.length ≤ 10
    ∧ (analyze_logs logs).action_plan.length ≤ 10
    ∧ (generate_recommendations analysis_data).length ≤ 10 := by
  refine ⟨?_, ?_, ?_⟩
  · unfold analyze_logs
    split
    · simp
    · simp [List.length_take]
  · unfold analyze_logs
    split
    · simp
    · simp [List.length_take]
  · unfold generate_recommendations
    simp [List.length_take]
